import Mathlib

/-!
Shallow embedding of the shader-program build pipeline of the `glesdemos`
repository (the repeated compile/link/cleanup boilerplate, and the extracted
`createShaderProgram` helper of one example).

The GL driver is modelled as a pure record of functions deciding, per stage
kind and source text, whether compilation succeeds and what diagnostic log it
produces, and per attached-stage list whether linking succeeds.  The GL context
is a state record holding the live shader and program objects, the ordered
trace of driver calls issued so far, and the ordered `printf` output.  Each GL
entry point used by the build code is a pure state transition, and the three
build code paths of the repository are translated call for call.
-/

namespace GLESDemos

/-- The shader stage kinds appearing in the repository. -/
inductive StageKind where
  | Vertex
  | Fragment
  | Compute
deriving DecidableEq, Repr

/-- The driver model: pure functions deciding compile and link outcomes and
the diagnostic logs, keyed on the stage kind and source text (for shaders)
and on the ordered list of attached stages (for programs). -/
structure Driver where
  compileOk : StageKind → String → Bool
  compileLog : StageKind → String → String
  linkOk : List (StageKind × String) → Bool
  linkLog : List (StageKind × String) → String

/-- A live shader object of the context: its handle, stage kind, and the
source text last given by `glShaderSource` (empty until then). -/
structure ShaderObj where
  id : Nat
  kind : StageKind
  src : String
deriving DecidableEq, Repr

/-- A live program object of the context: its handle and, in attach order,
the (kind, source) of each attached shader. -/
structure ProgramObj where
  id : Nat
  attached : List (StageKind × String)
deriving DecidableEq, Repr

/-- One driver call, for the call trace. -/
inductive GLCall where
  | createShader (kind : StageKind)
  | shaderSource (shader : Nat)
  | compileShader (shader : Nat)
  | getCompileStatus (shader : Nat)
  | getShaderInfoLog (shader : Nat)
  | createProgram
  | attachShader (program shader : Nat)
  | linkProgram (program : Nat)
  | getLinkStatus (program : Nat)
  | getProgramInfoLog (program : Nat)
  | deleteShader (shader : Nat)
deriving DecidableEq, Repr

/-- The GL context state: the next fresh object handle, the live shader and
program objects, the ordered trace of driver calls, and the `printf` output. -/
structure GLState where
  nextId : Nat
  shaders : List ShaderObj
  programs : List ProgramObj
  calls : List GLCall
  output : List String
deriving Repr

/-- The context state before any build code runs. -/
def initState : GLState := ⟨1, [], [], [], []⟩

/-- Record one driver call in the trace. -/
def record (c : GLCall) (st : GLState) : GLState :=
  { st with calls := st.calls ++ [c] }

/-- `glCreateShader(kind)`: allocate a fresh shader object. -/
def glCreateShader (k : StageKind) (st : GLState) : Nat × GLState :=
  (st.nextId,
    record (.createShader k)
      { st with
        nextId := st.nextId + 1
        shaders := st.shaders ++ [⟨st.nextId, k, ""⟩] })

/-- `glShaderSource(shader, 1, &src, NULL)`: store the source text on the
shader object. -/
def glShaderSource (id : Nat) (src : String) (st : GLState) : GLState :=
  record (.shaderSource id)
    { st with
      shaders := st.shaders.map fun s =>
        if s.id = id then { s with src := src } else s }

/-- `glCompileShader(shader)`: ask the driver to compile; the status is read
back separately. -/
def glCompileShader (id : Nat) (st : GLState) : GLState :=
  record (.compileShader id) st

/-- Look up a live shader object by handle. -/
def shaderById (st : GLState) (id : Nat) : Option ShaderObj :=
  st.shaders.find? fun s => s.id = id

/-- Look up a live program object by handle. -/
def programById (st : GLState) (id : Nat) : Option ProgramObj :=
  st.programs.find? fun p => p.id = id

/-- `glGetShaderiv(shader, GL_COMPILE_STATUS, &success)`: 1 when the driver
compiled the shader's (kind, source) successfully, else 0. -/
def glGetCompileStatus (d : Driver) (id : Nat) (st : GLState) : Int × GLState :=
  ((match shaderById st id with
    | some s => if d.compileOk s.kind s.src then 1 else 0
    | none => 0),
   record (.getCompileStatus id) st)

/-- Truncation performed by reading an info log into a 512-byte `char`
buffer: at most 511 characters fit before the terminating NUL. -/
def trunc511 (s : String) : String :=
  ⟨s.data.take 511⟩

/-- `glGetShaderInfoLog(shader, 512, NULL, info)`: the driver's log,
truncated to the 512-byte buffer (at most 511 characters plus the
terminating NUL). -/
def glGetShaderInfoLog512 (d : Driver) (id : Nat) (st : GLState) : String × GLState :=
  ((match shaderById st id with
    | some s => trunc511 (d.compileLog s.kind s.src)
    | none => ""),
   record (.getShaderInfoLog id) st)

/-- `glCreateProgram()`: allocate a fresh program object with no stages
attached. -/
def glCreateProgram (st : GLState) : Nat × GLState :=
  (st.nextId,
    record .createProgram
      { st with
        nextId := st.nextId + 1
        programs := st.programs ++ [⟨st.nextId, []⟩] })

/-- `glAttachShader(program, shader)`: append the shader's (kind, source) to
the program's attached list.  The program keeps this stage data even after
the shader handle is deleted, mirroring GL's reference semantics. -/
def glAttachShader (p s : Nat) (st : GLState) : GLState :=
  record (.attachShader p s)
    (match shaderById st s with
     | some sh =>
        { st with
          programs := st.programs.map fun pr =>
            if pr.id = p then { pr with attached := pr.attached ++ [(sh.kind, sh.src)] }
            else pr }
     | none => st)

/-- `glLinkProgram(program)`: ask the driver to link; the status is read
back separately. -/
def glLinkProgram (p : Nat) (st : GLState) : GLState :=
  record (.linkProgram p) st

/-- `glGetProgramiv(program, GL_LINK_STATUS, &success)`: 1 when the driver
links the program's attached stages successfully, else 0. -/
def glGetLinkStatus (d : Driver) (p : Nat) (st : GLState) : Int × GLState :=
  ((match programById st p with
    | some pr => if d.linkOk pr.attached then 1 else 0
    | none => 0),
   record (.getLinkStatus p) st)

/-- `glGetProgramInfoLog(program, 512, NULL, info)`: the driver's link log,
truncated to the 512-byte buffer (at most 511 characters plus NUL). -/
def glGetProgramInfoLog512 (d : Driver) (p : Nat) (st : GLState) : String × GLState :=
  ((match programById st p with
    | some pr => trunc511 (d.linkLog pr.attached)
    | none => ""),
   record (.getProgramInfoLog p) st)

/-- `glDeleteShader(shader)`: release the shader handle.  Data already
attached to a program is unaffected. -/
def glDeleteShader (id : Nat) (st : GLState) : GLState :=
  record (.deleteShader id)
    { st with shaders := st.shaders.filter fun s => s.id ≠ id }

/-- `printf` of one formatted message. -/
def printLine (s : String) (st : GLState) : GLState :=
  { st with output := st.output ++ [s] }

/-- Outcome of a build code path.  `procExit c` models `exit(c)` inside
`createShaderProgram` (the process terminates there, no value reaches the
caller); `ok p` is the returned program handle. -/
inductive BuildOutcome where
  | ok (program : Nat)
  | procExit (code : Int)
deriving DecidableEq, Repr

/-- `createShaderProgram(vertex_src, fragment_src)` of the texture-display
example, translated call for call: compile the vertex stage, on failure print
the log and `exit(-3)`; compile the fragment stage, on failure print the log
and `exit(-3)`; create a program, attach both, link, on failure print the log
and `exit(-3)`; only then delete both shader handles and return the program. -/
def createShaderProgram (d : Driver) (vertex_src fragment_src : String)
    (st : GLState) : BuildOutcome × GLState :=
  -- X.1. Create the vertex shader.
  let r := glCreateShader .Vertex st
  let vertex_shader := r.1
  let st := r.2
  let st := glShaderSource vertex_shader vertex_src st
  let st := glCompileShader vertex_shader st
  let r := glGetCompileStatus d vertex_shader st
  let success := r.1
  let st := r.2
  if success = 0 then
    let r := glGetShaderInfoLog512 d vertex_shader st
    let st := printLine ("Vertex shader error:\n" ++ r.1 ++ "\n") r.2
    (.procExit (-3), st)
  else
    -- X.2. Create the fragment shader.
    let r := glCreateShader .Fragment st
    let fragment_shader := r.1
    let st := r.2
    let st := glShaderSource fragment_shader fragment_src st
    let st := glCompileShader fragment_shader st
    let r := glGetCompileStatus d fragment_shader st
    let success := r.1
    let st := r.2
    if success = 0 then
      let r := glGetShaderInfoLog512 d fragment_shader st
      let st := printLine ("Fragment shader error:\n" ++ r.1 ++ "\n") r.2
      (.procExit (-3), st)
    else
      -- X.3. Create a shader program and attach the vertex/fragment shaders.
      let r := glCreateProgram st
      let shader_program := r.1
      let st := r.2
      let st := glAttachShader shader_program vertex_shader st
      let st := glAttachShader shader_program fragment_shader st
      let st := glLinkProgram shader_program st
      let r := glGetLinkStatus d shader_program st
      let success := r.1
      let st := r.2
      if success = 0 then
        let r := glGetProgramInfoLog512 d shader_program st
        let st := printLine ("Program error:\n" ++ r.1 ++ "\n") r.2
        (.procExit (-3), st)
      else
        -- X.4. The vertex and fragment shaders can be removed after linking.
        let st := glDeleteShader vertex_shader st
        let st := glDeleteShader fragment_shader st
        (.ok shader_program, st)

/-- Sections 6–9 of `main` in the cube example (the same pipeline written
inline): a failure is `return -3` from `main` (modelled as `Except.error`),
success falls through with the program handle. -/
def cubeBuildProgram (d : Driver) (vertex_src fragment_src : String)
    (st : GLState) : Except Int Nat × GLState :=
  let r := glCreateShader .Vertex st
  let vertex_shader := r.1
  let st := r.2
  let st := glShaderSource vertex_shader vertex_src st
  let st := glCompileShader vertex_shader st
  let r := glGetCompileStatus d vertex_shader st
  let st := r.2
  if r.1 = 0 then
    let r := glGetShaderInfoLog512 d vertex_shader st
    let st := printLine ("Vertex shader error:\n" ++ r.1 ++ "\n") r.2
    (.error (-3), st)
  else
    let r := glCreateShader .Fragment st
    let fragment_shader := r.1
    let st := r.2
    let st := glShaderSource fragment_shader fragment_src st
    let st := glCompileShader fragment_shader st
    let r := glGetCompileStatus d fragment_shader st
    let st := r.2
    if r.1 = 0 then
      let r := glGetShaderInfoLog512 d fragment_shader st
      let st := printLine ("Fragment shader error:\n" ++ r.1 ++ "\n") r.2
      (.error (-3), st)
    else
      let r := glCreateProgram st
      let shader_program := r.1
      let st := r.2
      let st := glAttachShader shader_program vertex_shader st
      let st := glAttachShader shader_program fragment_shader st
      let st := glLinkProgram shader_program st
      let r := glGetLinkStatus d shader_program st
      let st := r.2
      if r.1 = 0 then
        let r := glGetProgramInfoLog512 d shader_program st
        let st := printLine ("Program error:\n" ++ r.1 ++ "\n") r.2
        (.error (-3), st)
      else
        let st := glDeleteShader vertex_shader st
        let st := glDeleteShader fragment_shader st
        (.ok shader_program, st)

/-- The compute-only build of `gles_compute_pure.cpp`: one compute shader is
compiled (failure: print log, `return -3`), attached alone to a program and
linked (failure: print log, `return -3`), and deleted after the successful
link. -/
def computeBuildProgram (d : Driver) (compute_src : String)
    (st : GLState) : Except Int Nat × GLState :=
  let r := glCreateShader .Compute st
  let compute_shader := r.1
  let st := r.2
  let st := glShaderSource compute_shader compute_src st
  let st := glCompileShader compute_shader st
  let r := glGetCompileStatus d compute_shader st
  let st := r.2
  if r.1 = 0 then
    let r := glGetShaderInfoLog512 d compute_shader st
    let st := printLine ("Compute shader error:\n" ++ r.1 ++ "\n") r.2
    (.error (-3), st)
  else
    let r := glCreateProgram st
    let compute_program := r.1
    let st := r.2
    let st := glAttachShader compute_program compute_shader st
    let st := glLinkProgram compute_program st
    let r := glGetLinkStatus d compute_program st
    let st := r.2
    if r.1 = 0 then
      let r := glGetProgramInfoLog512 d compute_program st
      let st := printLine ("Program error:\n" ++ r.1 ++ "\n") r.2
      (.error (-3), st)
    else
      let st := glDeleteShader compute_shader st
      (.ok compute_program, st)

/-- A driver that compiles and links everything (empty logs, which are never
read on success paths). -/
def driverAllOk : Driver :=
  ⟨fun _ _ => true, fun _ _ => "", fun _ => true, fun _ => ""⟩

/-- A driver that rejects vertex-stage compilation with a diagnostic. -/
def driverVertexFail : Driver :=
  ⟨fun k _ => match k with | .Vertex => false | _ => true,
   fun _ _ => "0:1: syntax error", fun _ => true, fun _ => ""⟩

/-- A driver that rejects fragment-stage compilation with a diagnostic. -/
def driverFragFail : Driver :=
  ⟨fun k _ => match k with | .Fragment => false | _ => true,
   fun _ _ => "0:2: undeclared identifier", fun _ => true, fun _ => ""⟩

/-- A driver that compiles every stage but rejects linking with a
diagnostic. -/
def driverLinkFail : Driver :=
  ⟨fun _ _ => true, fun _ _ => "", fun _ => false, fun _ => "varying mismatch"⟩

/-- A driver that rejects compute-stage compilation with a diagnostic. -/
def driverComputeFail : Driver :=
  ⟨fun k _ => match k with | .Compute => false | _ => true,
   fun _ _ => "0:3: bad layout", fun _ => true, fun _ => ""⟩

/-- A truncated log is empty only when the driver's log was empty. -/
theorem trunc511_ne_empty (s : String) (h : s ≠ "") : trunc511 s ≠ "" := by
  intro hc
  apply h
  cases s with
  | mk l =>
    have hd : l.take 511 = [] := congrArg String.data hc
    have hlen : min 511 l.length = 0 := by
      have h2 := congrArg List.length hd
      simpa using h2
    have hl0 : l.length = 0 := by omega
    have hnil : l = [] := List.eq_nil_of_length_eq_zero hl0
    rw [hnil]

/-- The log text read through the 512-byte buffer has at most 512
characters. -/
theorem trunc511_length_le (s : String) : (trunc511 s).length ≤ 512 := by
  cases s with
  | mk l =>
    have hm : (trunc511 ⟨l⟩).length = min 511 l.length := by
      simp [trunc511, String.length]
    omega

/-- Characterization of `createShaderProgram` when the driver rejects the
vertex stage: the call exits with -3 after reading the vertex log; the
fragment stage is never created and no program object exists. -/
theorem csp_vertexFail_eq (d : Driver) (v f : String)
    (hv : d.compileOk .Vertex v = false) :
    createShaderProgram d v f initState =
      (.procExit (-3),
       ⟨2, [⟨1, .Vertex, v⟩], [],
        [.createShader .Vertex, .shaderSource 1, .compileShader 1,
         .getCompileStatus 1, .getShaderInfoLog 1],
        ["Vertex shader error:\n" ++ trunc511 (d.compileLog .Vertex v) ++ "\n"]⟩) := by
  simp [createShaderProgram, glCreateShader, glShaderSource, glCompileShader,
        glGetCompileStatus, glGetShaderInfoLog512, glCreateProgram, glAttachShader,
        glLinkProgram, glGetLinkStatus, glGetProgramInfoLog512, glDeleteShader,
        record, printLine, shaderById, programById, initState, hv]

/-- Characterization of `createShaderProgram` when the vertex stage compiles
but the driver rejects the fragment stage: the call exits with -3 after
reading the fragment log; no program object is ever created. -/
theorem csp_fragFail_eq (d : Driver) (v f : String)
    (hv : d.compileOk .Vertex v = true) (hf : d.compileOk .Fragment f = false) :
    createShaderProgram d v f initState =
      (.procExit (-3),
       ⟨3, [⟨1, .Vertex, v⟩, ⟨2, .Fragment, f⟩], [],
        [.createShader .Vertex, .shaderSource 1, .compileShader 1, .getCompileStatus 1,
         .createShader .Fragment, .shaderSource 2, .compileShader 2, .getCompileStatus 2,
         .getShaderInfoLog 2],
        ["Fragment shader error:\n" ++ trunc511 (d.compileLog .Fragment f) ++ "\n"]⟩) := by
  simp [createShaderProgram, glCreateShader, glShaderSource, glCompileShader,
        glGetCompileStatus, glGetShaderInfoLog512, glCreateProgram, glAttachShader,
        glLinkProgram, glGetLinkStatus, glGetProgramInfoLog512, glDeleteShader,
        record, printLine, shaderById, programById, initState, hv, hf]

/-- Characterization of `createShaderProgram` when both stages compile but
the driver rejects the link: the call exits with -3 after reading the
program log, and both shader handles are still live (never deleted). -/
theorem csp_linkFail_eq (d : Driver) (v f : String)
    (hv : d.compileOk .Vertex v = true) (hf : d.compileOk .Fragment f = true)
    (hl : d.linkOk [(.Vertex, v), (.Fragment, f)] = false) :
    createShaderProgram d v f initState =
      (.procExit (-3),
       ⟨4, [⟨1, .Vertex, v⟩, ⟨2, .Fragment, f⟩], [⟨3, [(.Vertex, v), (.Fragment, f)]⟩],
        [.createShader .Vertex, .shaderSource 1, .compileShader 1, .getCompileStatus 1,
         .createShader .Fragment, .shaderSource 2, .compileShader 2, .getCompileStatus 2,
         .createProgram, .attachShader 3 1, .attachShader 3 2, .linkProgram 3,
         .getLinkStatus 3, .getProgramInfoLog 3],
        ["Program error:\n" ++ trunc511 (d.linkLog [(.Vertex, v), (.Fragment, f)]) ++ "\n"]⟩) := by
  simp [createShaderProgram, glCreateShader, glShaderSource, glCompileShader,
        glGetCompileStatus, glGetShaderInfoLog512, glCreateProgram, glAttachShader,
        glLinkProgram, glGetLinkStatus, glGetProgramInfoLog512, glDeleteShader,
        record, printLine, shaderById, programById, initState, hv, hf, hl]

/-- Characterization of `createShaderProgram` on the all-success path: both
stages are compiled, attached, the program links, both shader handles are
deleted, and the program handle is returned with nothing printed. -/
theorem csp_success_eq (d : Driver) (v f : String)
    (hv : d.compileOk .Vertex v = true) (hf : d.compileOk .Fragment f = true)
    (hl : d.linkOk [(.Vertex, v), (.Fragment, f)] = true) :
    createShaderProgram d v f initState =
      (.ok 3,
       ⟨4, [], [⟨3, [(.Vertex, v), (.Fragment, f)]⟩],
        [.createShader .Vertex, .shaderSource 1, .compileShader 1, .getCompileStatus 1,
         .createShader .Fragment, .shaderSource 2, .compileShader 2, .getCompileStatus 2,
         .createProgram, .attachShader 3 1, .attachShader 3 2, .linkProgram 3,
         .getLinkStatus 3, .deleteShader 1, .deleteShader 2],
        []⟩) := by
  simp [createShaderProgram, glCreateShader, glShaderSource, glCompileShader,
        glGetCompileStatus, glGetShaderInfoLog512, glCreateProgram, glAttachShader,
        glLinkProgram, glGetLinkStatus, glGetProgramInfoLog512, glDeleteShader,
        record, printLine, shaderById, programById, initState, hv, hf, hl]

/-- Characterization of the compute-only build on the all-success path: one
compute stage is compiled, attached alone, linked, and deleted after the
link; the program handle is returned with nothing printed. -/
theorem compute_success_eq (d : Driver) (c : String)
    (hc : d.compileOk .Compute c = true) (hl : d.linkOk [(.Compute, c)] = true) :
    computeBuildProgram d c initState =
      (.ok 2,
       ⟨3, [], [⟨2, [(.Compute, c)]⟩],
        [.createShader .Compute, .shaderSource 1, .compileShader 1, .getCompileStatus 1,
         .createProgram, .attachShader 2 1, .linkProgram 2, .getLinkStatus 2,
         .deleteShader 1],
        []⟩) := by
  simp [computeBuildProgram, glCreateShader, glShaderSource, glCompileShader,
        glGetCompileStatus, glGetShaderInfoLog512, glCreateProgram, glAttachShader,
        glLinkProgram, glGetLinkStatus, glGetProgramInfoLog512, glDeleteShader,
        record, printLine, shaderById, programById, initState, hc, hl]

/-- C1 counterexample: with a driver that compiles both stages but rejects
the link, linking is attempted (`linkProgram 3` is in the trace) and the
operation terminates, yet both compiled-stage handles are still live — the
claim that stage release is unconditional once linking has been attempted
fails on the link-failure path. -/
theorem C1_counterexample :
    GLCall.linkProgram 3 ∈ (createShaderProgram driverLinkFail "v" "f" initState).2.calls ∧
    shaderById (createShaderProgram driverLinkFail "v" "f" initState).2 1 =
      some ⟨1, .Vertex, "v"⟩ ∧
    shaderById (createShaderProgram driverLinkFail "v" "f" initState).2 2 =
      some ⟨2, .Fragment, "f"⟩ := by
  rw [csp_linkFail_eq driverLinkFail "v" "f" rfl rfl rfl]
  refine ⟨by decide, ?_, ?_⟩ <;> rfl

/-- C1 (amended): on the success path every compiled-stage handle is
released before the operation returns; on the link-failure path the
operation terminates the process with code -3 and neither compiled-stage
handle is ever released (the deletes are only reached after a successful
link). -/
theorem C1_stage_release (d : Driver) (v f : String)
    (hv : d.compileOk .Vertex v = true) (hf : d.compileOk .Fragment f = true) :
    (d.linkOk [(.Vertex, v), (.Fragment, f)] = true →
      (createShaderProgram d v f initState).2.shaders = [] ∧
      GLCall.deleteShader 1 ∈ (createShaderProgram d v f initState).2.calls ∧
      GLCall.deleteShader 2 ∈ (createShaderProgram d v f initState).2.calls) ∧
    (d.linkOk [(.Vertex, v), (.Fragment, f)] = false →
      (createShaderProgram d v f initState).1 = .procExit (-3) ∧
      (createShaderProgram d v f initState).2.shaders =
        [⟨1, .Vertex, v⟩, ⟨2, .Fragment, f⟩] ∧
      GLCall.deleteShader 1 ∉ (createShaderProgram d v f initState).2.calls ∧
      GLCall.deleteShader 2 ∉ (createShaderProgram d v f initState).2.calls) := by
  constructor
  · intro hl
    rw [csp_success_eq d v f hv hf hl]
    exact ⟨rfl, by simp, by simp⟩
  · intro hl
    rw [csp_linkFail_eq d v f hv hf hl]
    exact ⟨rfl, rfl, by simp, by simp⟩

/-- C1 witness: the amended statement applied to an all-success driver and
to a link-rejecting driver. -/
theorem C1_stage_release_witness :
    (createShaderProgram driverAllOk "v" "f" initState).2.shaders = [] ∧
    (createShaderProgram driverLinkFail "v" "f" initState).2.shaders =
      [⟨1, .Vertex, "v"⟩, ⟨2, .Fragment, "f"⟩] :=
  ⟨((C1_stage_release driverAllOk "v" "f" rfl rfl).1 rfl).1,
   ((C1_stage_release driverLinkFail "v" "f" rfl rfl).2 rfl).2.1⟩

/-- C2: when the driver rejects the vertex stage (and produces diagnostic
text), the build stops at that first compile error with exit code -3,
surfaces the Vertex stage kind together with a non-empty diagnostic log,
never creates or compiles the fragment stage, and never attempts to link. -/
theorem C2_vertex_short_circuit (d : Driver) (v f : String)
    (hv : d.compileOk .Vertex v = false)
    (hlog : d.compileLog .Vertex v ≠ "") :
    (createShaderProgram d v f initState).1 = .procExit (-3) ∧
    (createShaderProgram d v f initState).2.output =
      ["Vertex shader error:\n" ++ trunc511 (d.compileLog .Vertex v) ++ "\n"] ∧
    trunc511 (d.compileLog .Vertex v) ≠ "" ∧
    GLCall.createShader .Fragment ∉ (createShaderProgram d v f initState).2.calls ∧
    (∀ n, GLCall.compileShader n ∈ (createShaderProgram d v f initState).2.calls → n = 1) ∧
    (∀ p, GLCall.linkProgram p ∉ (createShaderProgram d v f initState).2.calls) := by
  rw [csp_vertexFail_eq d v f hv]
  refine ⟨rfl, rfl, trunc511_ne_empty _ hlog, by simp, ?_, ?_⟩
  · intro n hn
    simpa using hn
  · intro p hp
    simp at hp

/-- C2 witness: the short circuit observed for a concrete vertex-rejecting
driver. -/
theorem C2_witness :
    (createShaderProgram driverVertexFail "v" "f" initState).1 = .procExit (-3) ∧
    GLCall.createShader .Fragment ∉
      (createShaderProgram driverVertexFail "v" "f" initState).2.calls :=
  ⟨(C2_vertex_short_circuit driverVertexFail "v" "f" rfl (by decide)).1,
   (C2_vertex_short_circuit driverVertexFail "v" "f" rfl (by decide)).2.2.2.1⟩

/-- C3: when both stages compile but the driver rejects the link (producing
diagnostic text), the build fails with exit code -3 carrying the linker's
non-empty diagnostic log, and both stages were indeed compiled before the
failure surfaced. -/
theorem C3_link_failure (d : Driver) (v f : String)
    (hv : d.compileOk .Vertex v = true) (hf : d.compileOk .Fragment f = true)
    (hl : d.linkOk [(.Vertex, v), (.Fragment, f)] = false)
    (hlog : d.linkLog [(.Vertex, v), (.Fragment, f)] ≠ "") :
    (createShaderProgram d v f initState).1 = .procExit (-3) ∧
    (createShaderProgram d v f initState).2.output =
      ["Program error:\n" ++ trunc511 (d.linkLog [(.Vertex, v), (.Fragment, f)]) ++ "\n"] ∧
    trunc511 (d.linkLog [(.Vertex, v), (.Fragment, f)]) ≠ "" ∧
    GLCall.compileShader 1 ∈ (createShaderProgram d v f initState).2.calls ∧
    GLCall.compileShader 2 ∈ (createShaderProgram d v f initState).2.calls := by
  rw [csp_linkFail_eq d v f hv hf hl]
  exact ⟨rfl, rfl, trunc511_ne_empty _ hlog, by simp, by simp⟩

/-- C3 witness: the link failure observed for a concrete link-rejecting
driver. -/
theorem C3_witness :
    (createShaderProgram driverLinkFail "v" "f" initState).1 = .procExit (-3) ∧
    GLCall.compileShader 2 ∈ (createShaderProgram driverLinkFail "v" "f" initState).2.calls :=
  ⟨(C3_link_failure driverLinkFail "v" "f" rfl rfl rfl (by decide)).1,
   (C3_link_failure driverLinkFail "v" "f" rfl rfl rfl (by decide)).2.2.2.2⟩

/-- C4 counterexample: for a concrete failing input the builder itself
terminates the process (modelled `exit(-3)`) instead of returning a typed
failure value to its caller, so the caller never gets to decide whether
the failure is fatal. -/
theorem C4_counterexample :
    (createShaderProgram driverVertexFail "v" "f" initState).1 =
      BuildOutcome.procExit (-3) := by
  rw [csp_vertexFail_eq driverVertexFail "v" "f" rfl]

/-- C4 (amended): every failing build attempt prints the diagnostic and
terminates the process with exit code -3 from within the build code itself
(`exit(-3)` inside `createShaderProgram`, `return -3` from `main` in the
inline examples); no typed error result reaches a caller. -/
theorem C4_amended (d : Driver) (v f : String) :
    (d.compileOk .Vertex v = false →
      (createShaderProgram d v f initState).1 = .procExit (-3)) ∧
    (d.compileOk .Vertex v = true → d.compileOk .Fragment f = false →
      (createShaderProgram d v f initState).1 = .procExit (-3)) ∧
    (d.compileOk .Vertex v = true → d.compileOk .Fragment f = true →
      d.linkOk [(.Vertex, v), (.Fragment, f)] = false →
      (createShaderProgram d v f initState).1 = .procExit (-3)) ∧
    (d.compileOk .Vertex v = false →
      (cubeBuildProgram d v f initState).1 = .error (-3)) := by
  refine ⟨?_, ?_, ?_, ?_⟩
  · intro hv; rw [csp_vertexFail_eq d v f hv]
  · intro hv hf; rw [csp_fragFail_eq d v f hv hf]
  · intro hv hf hl; rw [csp_linkFail_eq d v f hv hf hl]
  · intro hv
    simp [cubeBuildProgram, glCreateShader, glShaderSource, glCompileShader,
          glGetCompileStatus, glGetShaderInfoLog512, glCreateProgram, glAttachShader,
          glLinkProgram, glGetLinkStatus, glGetProgramInfoLog512, glDeleteShader,
          record, printLine, shaderById, programById, initState, hv]

/-- C4 witness: the amended statement applied to a link-rejecting driver
and to a vertex-rejecting driver. -/
theorem C4_witness :
    (createShaderProgram driverLinkFail "v" "f" initState).1 = .procExit (-3) ∧
    (cubeBuildProgram driverVertexFail "v" "f" initState).1 = .error (-3) :=
  ⟨(C4_amended driverLinkFail "v" "f").2.2.1 rfl rfl rfl,
   (C4_amended driverVertexFail "v" "f").2.2.2 rfl⟩

/-- C5: on a successful build the lifecycle is exactly create, source,
compile (per stage), create program, attach, link, then the two stage
handles are deleted immediately after the successful link; afterwards both
shader handles are gone while the linked program object is still live with
its attached stage data intact, so it remains usable for draw calls. -/
theorem C5_success_lifecycle (d : Driver) (v f : String)
    (hv : d.compileOk .Vertex v = true) (hf : d.compileOk .Fragment f = true)
    (hl : d.linkOk [(.Vertex, v), (.Fragment, f)] = true) :
    (createShaderProgram d v f initState).1 = .ok 3 ∧
    (createShaderProgram d v f initState).2.calls =
      [.createShader .Vertex, .shaderSource 1, .compileShader 1, .getCompileStatus 1,
       .createShader .Fragment, .shaderSource 2, .compileShader 2, .getCompileStatus 2,
       .createProgram, .attachShader 3 1, .attachShader 3 2, .linkProgram 3,
       .getLinkStatus 3, .deleteShader 1, .deleteShader 2] ∧
    shaderById (createShaderProgram d v f initState).2 1 = none ∧
    shaderById (createShaderProgram d v f initState).2 2 = none ∧
    programById (createShaderProgram d v f initState).2 3 =
      some ⟨3, [(.Vertex, v), (.Fragment, f)]⟩ := by
  rw [csp_success_eq d v f hv hf hl]
  refine ⟨rfl, rfl, rfl, rfl, ?_⟩
  simp [programById]

/-- C5 witness: the lifecycle observed for an all-success driver. -/
theorem C5_witness :
    (createShaderProgram driverAllOk "v" "f" initState).1 = .ok 3 ∧
    programById (createShaderProgram driverAllOk "v" "f" initState).2 3 =
      some ⟨3, [(.Vertex, "v"), (.Fragment, "f")]⟩ :=
  ⟨(C5_success_lifecycle driverAllOk "v" "f" rfl rfl rfl).1,
   (C5_success_lifecycle driverAllOk "v" "f" rfl rfl rfl).2.2.2.2⟩

/-- C6: the compute-only build accepts a single valid compute-stage source
and returns a successfully linked program whose only attached stage is the
compute stage; no vertex or fragment stage is ever created. -/
theorem C6_compute_only (d : Driver) (c : String)
    (hc : d.compileOk .Compute c = true) (hl : d.linkOk [(.Compute, c)] = true) :
    (computeBuildProgram d c initState).1 = .ok 2 ∧
    programById (computeBuildProgram d c initState).2 2 = some ⟨2, [(.Compute, c)]⟩ ∧
    GLCall.createShader .Vertex ∉ (computeBuildProgram d c initState).2.calls ∧
    GLCall.createShader .Fragment ∉ (computeBuildProgram d c initState).2.calls := by
  rw [compute_success_eq d c hc hl]
  refine ⟨rfl, by simp [programById], by simp, by simp⟩

/-- C6 witness: the compute-only build succeeding for an all-success
driver. -/
theorem C6_witness :
    (computeBuildProgram driverAllOk "c" initState).1 = .ok 2 ∧
    GLCall.createShader .Fragment ∉ (computeBuildProgram driverAllOk "c" initState).2.calls :=
  ⟨(C6_compute_only driverAllOk "c" rfl rfl).1,
   (C6_compute_only driverAllOk "c" rfl rfl).2.2.2⟩

/-- C7: on every failure path the diagnostic printed with the failure is
exactly the driver's log read through the 512-byte buffer: its length is at
most 512 characters, it is attached verbatim to the failure message, and it
is non-empty whenever the driver produced any diagnostic text. -/
theorem C7_diagnostic_log (d : Driver) (v f : String) :
    (d.compileOk .Vertex v = false →
      (createShaderProgram d v f initState).2.output =
        ["Vertex shader error:\n" ++ trunc511 (d.compileLog .Vertex v) ++ "\n"] ∧
      (trunc511 (d.compileLog .Vertex v)).length ≤ 512 ∧
      (d.compileLog .Vertex v ≠ "" → trunc511 (d.compileLog .Vertex v) ≠ "")) ∧
    (d.compileOk .Vertex v = true → d.compileOk .Fragment f = false →
      (createShaderProgram d v f initState).2.output =
        ["Fragment shader error:\n" ++ trunc511 (d.compileLog .Fragment f) ++ "\n"] ∧
      (trunc511 (d.compileLog .Fragment f)).length ≤ 512 ∧
      (d.compileLog .Fragment f ≠ "" → trunc511 (d.compileLog .Fragment f) ≠ "")) ∧
    (d.compileOk .Vertex v = true → d.compileOk .Fragment f = true →
      d.linkOk [(.Vertex, v), (.Fragment, f)] = false →
      (createShaderProgram d v f initState).2.output =
        ["Program error:\n" ++ trunc511 (d.linkLog [(.Vertex, v), (.Fragment, f)]) ++ "\n"] ∧
      (trunc511 (d.linkLog [(.Vertex, v), (.Fragment, f)])).length ≤ 512 ∧
      (d.linkLog [(.Vertex, v), (.Fragment, f)] ≠ "" →
        trunc511 (d.linkLog [(.Vertex, v), (.Fragment, f)]) ≠ "")) := by
  refine ⟨?_, ?_, ?_⟩
  · intro hv
    rw [csp_vertexFail_eq d v f hv]
    exact ⟨rfl, trunc511_length_le _, fun h => trunc511_ne_empty _ h⟩
  · intro hv hf
    rw [csp_fragFail_eq d v f hv hf]
    exact ⟨rfl, trunc511_length_le _, fun h => trunc511_ne_empty _ h⟩
  · intro hv hf hl
    rw [csp_linkFail_eq d v f hv hf hl]
    exact ⟨rfl, trunc511_length_le _, fun h => trunc511_ne_empty _ h⟩

/-- C7 witness: the attached diagnostics observed for concrete failing
drivers on all three failure paths. -/
theorem C7_witness :
    (createShaderProgram driverVertexFail "v" "f" initState).2.output =
      ["Vertex shader error:\n" ++ trunc511 (driverVertexFail.compileLog .Vertex "v") ++ "\n"] ∧
    (createShaderProgram driverFragFail "v" "f" initState).2.output =
      ["Fragment shader error:\n" ++ trunc511 (driverFragFail.compileLog .Fragment "f") ++ "\n"] ∧
    (createShaderProgram driverLinkFail "v" "f" initState).2.output =
      ["Program error:\n" ++
        trunc511 (driverLinkFail.linkLog [(.Vertex, "v"), (.Fragment, "f")]) ++ "\n"] :=
  ⟨((C7_diagnostic_log driverVertexFail "v" "f").1 rfl).1,
   ((C7_diagnostic_log driverFragFail "v" "f").2.1 rfl rfl).1,
   ((C7_diagnostic_log driverLinkFail "v" "f").2.2 rfl rfl rfl).1⟩

/-- C8: building twice with identical valid source succeeds both times and
yields two distinct program handles (3 and 6), both live afterwards with
identical attached stages; the second call's outcome, run on the state the
first call left behind, is unaffected by the first. -/
theorem C8_repeat_build (d : Driver) (v f : String)
    (hv : d.compileOk .Vertex v = true) (hf : d.compileOk .Fragment f = true)
    (hl : d.linkOk [(.Vertex, v), (.Fragment, f)] = true) :
    (createShaderProgram d v f initState).1 = .ok 3 ∧
    (createShaderProgram d v f (createShaderProgram d v f initState).2).1 = .ok 6 ∧
    programById (createShaderProgram d v f (createShaderProgram d v f initState).2).2 3 =
      some ⟨3, [(.Vertex, v), (.Fragment, f)]⟩ ∧
    programById (createShaderProgram d v f (createShaderProgram d v f initState).2).2 6 =
      some ⟨6, [(.Vertex, v), (.Fragment, f)]⟩ := by
  rw [csp_success_eq d v f hv hf hl]
  refine ⟨rfl, ?_, ?_, ?_⟩ <;>
    simp [createShaderProgram, glCreateShader, glShaderSource, glCompileShader,
          glGetCompileStatus, glGetShaderInfoLog512, glCreateProgram, glAttachShader,
          glLinkProgram, glGetLinkStatus, glGetProgramInfoLog512, glDeleteShader,
          record, printLine, shaderById, programById, hv, hf, hl]

/-- C8 witness: two consecutive successful builds for an all-success
driver. -/
theorem C8_witness :
    (createShaderProgram driverAllOk "v" "f" initState).1 = .ok 3 ∧
    (createShaderProgram driverAllOk "v" "f"
      (createShaderProgram driverAllOk "v" "f" initState).2).1 = .ok 6 :=
  ⟨(C8_repeat_build driverAllOk "v" "f" rfl rfl rfl).1,
   (C8_repeat_build driverAllOk "v" "f" rfl rfl rfl).2.1⟩

/-- C9: each info log is read from the driver exactly when the matching
status query reports failure — the vertex shader log exactly when the
vertex compile fails, the fragment shader log exactly when the vertex
compiles and the fragment compile fails, and the program log exactly when
both compile and the link fails; on success paths no info log is ever
read. -/
theorem C9_log_read_iff_failure (d : Driver) (v f : String) :
    (GLCall.getShaderInfoLog 1 ∈ (createShaderProgram d v f initState).2.calls ↔
      d.compileOk .Vertex v = false) ∧
    (GLCall.getShaderInfoLog 2 ∈ (createShaderProgram d v f initState).2.calls ↔
      (d.compileOk .Vertex v = true ∧ d.compileOk .Fragment f = false)) ∧
    (GLCall.getProgramInfoLog 3 ∈ (createShaderProgram d v f initState).2.calls ↔
      (d.compileOk .Vertex v = true ∧ d.compileOk .Fragment f = true ∧
       d.linkOk [(.Vertex, v), (.Fragment, f)] = false)) := by
  cases hv : d.compileOk .Vertex v with
  | false =>
    rw [csp_vertexFail_eq d v f hv]
    simp
  | true =>
    cases hf : d.compileOk .Fragment f with
    | false =>
      rw [csp_fragFail_eq d v f hv hf]
      simp
    | true =>
      cases hl : d.linkOk [(.Vertex, v), (.Fragment, f)] with
      | false =>
        rw [csp_linkFail_eq d v f hv hf hl]
        simp
      | true =>
        rw [csp_success_eq d v f hv hf hl]
        simp

/-- C9 witness: for a concrete vertex-rejecting driver the vertex shader
log is indeed read. -/
theorem C9_witness :
    GLCall.getShaderInfoLog 1 ∈
      (createShaderProgram driverVertexFail "v" "f" initState).2.calls :=
  (C9_log_read_iff_failure driverVertexFail "v" "f").1.mpr rfl

/-- C10: every failure mode — vertex compile, fragment compile, link,
compute compile, compute link — ends the process with the same exit code
-3, while the printed diagnostics carry pairwise-distinct phase headers,
so the failing phase is distinguishable only through the printed text,
never through the exit status. -/
theorem C10_uniform_exit_code (d : Driver) (v f c : String) :
    (d.compileOk .Vertex v = false →
      (createShaderProgram d v f initState).1 = .procExit (-3) ∧
      (createShaderProgram d v f initState).2.output =
        ["Vertex shader error:\n" ++ trunc511 (d.compileLog .Vertex v) ++ "\n"]) ∧
    (d.compileOk .Vertex v = true → d.compileOk .Fragment f = false →
      (createShaderProgram d v f initState).1 = .procExit (-3) ∧
      (createShaderProgram d v f initState).2.output =
        ["Fragment shader error:\n" ++ trunc511 (d.compileLog .Fragment f) ++ "\n"]) ∧
    (d.compileOk .Vertex v = true → d.compileOk .Fragment f = true →
      d.linkOk [(.Vertex, v), (.Fragment, f)] = false →
      (createShaderProgram d v f initState).1 = .procExit (-3) ∧
      (createShaderProgram d v f initState).2.output =
        ["Program error:\n" ++ trunc511 (d.linkLog [(.Vertex, v), (.Fragment, f)]) ++ "\n"]) ∧
    (d.compileOk .Compute c = false →
      (computeBuildProgram d c initState).1 = .error (-3) ∧
      (computeBuildProgram d c initState).2.output =
        ["Compute shader error:\n" ++ trunc511 (d.compileLog .Compute c) ++ "\n"]) ∧
    (d.compileOk .Compute c = true → d.linkOk [(.Compute, c)] = false →
      (computeBuildProgram d c initState).1 = .error (-3) ∧
      (computeBuildProgram d c initState).2.output =
        ["Program error:\n" ++ trunc511 (d.linkLog [(.Compute, c)]) ++ "\n"]) ∧
    ("Vertex shader error:\n" ≠ "Fragment shader error:\n" ∧
     "Vertex shader error:\n" ≠ "Compute shader error:\n" ∧
     "Vertex shader error:\n" ≠ "Program error:\n" ∧
     "Fragment shader error:\n" ≠ "Compute shader error:\n" ∧
     "Fragment shader error:\n" ≠ "Program error:\n" ∧
     "Compute shader error:\n" ≠ "Program error:\n") := by
  refine ⟨?_, ?_, ?_, ?_, ?_, by decide, by decide, by decide, by decide, by decide, by decide⟩
  · intro hv
    rw [csp_vertexFail_eq d v f hv]
    exact ⟨rfl, rfl⟩
  · intro hv hf
    rw [csp_fragFail_eq d v f hv hf]
    exact ⟨rfl, rfl⟩
  · intro hv hf hl
    rw [csp_linkFail_eq d v f hv hf hl]
    exact ⟨rfl, rfl⟩
  · intro hc
    simp [computeBuildProgram, glCreateShader, glShaderSource, glCompileShader,
          glGetCompileStatus, glGetShaderInfoLog512, glCreateProgram, glAttachShader,
          glLinkProgram, glGetLinkStatus, glGetProgramInfoLog512, glDeleteShader,
          record, printLine, shaderById, programById, initState, hc]
  · intro hc hl
    simp [computeBuildProgram, glCreateShader, glShaderSource, glCompileShader,
          glGetCompileStatus, glGetShaderInfoLog512, glCreateProgram, glAttachShader,
          glLinkProgram, glGetLinkStatus, glGetProgramInfoLog512, glDeleteShader,
          record, printLine, shaderById, programById, initState, hc, hl]

/-- C10 witness: all five failure phases instantiated with concrete
drivers, each ending with exit code -3. -/
theorem C10_witness :
    (createShaderProgram driverVertexFail "v" "f" initState).1 = .procExit (-3) ∧
    (createShaderProgram driverFragFail "v" "f" initState).1 = .procExit (-3) ∧
    (createShaderProgram driverLinkFail "v" "f" initState).1 = .procExit (-3) ∧
    (computeBuildProgram driverComputeFail "c" initState).1 = .error (-3) ∧
    (computeBuildProgram driverLinkFail "c" initState).1 = .error (-3) :=
  ⟨((C10_uniform_exit_code driverVertexFail "v" "f" "c").1 rfl).1,
   ((C10_uniform_exit_code driverFragFail "v" "f" "c").2.1 rfl rfl).1,
   ((C10_uniform_exit_code driverLinkFail "v" "f" "c").2.2.1 rfl rfl rfl).1,
   ((C10_uniform_exit_code driverComputeFail "v" "f" "c").2.2.2.1 rfl).1,
   ((C10_uniform_exit_code driverLinkFail "v" "f" "c").2.2.2.2.1 rfl rfl).1⟩

end GLESDemos
